import Mathlib

/-!
Verification of the `opentel_collector` crate (bcgov/citz-imb-sre-tooling).

This file gives a shallow embedding, in Lean, of the data model and the
operations of the collector:

* `src/opentel_collector/src/telemetry.rs` — `LogEntry`, `TraceSpan`,
  `LogLevel`, `SpanStatus`, `TelemetryBatch`;
* `src/opentel_collector/src/buffer.rs` — `TelemetryBuffer` and
  `PriorityTelemetryBuffer`;
* `src/opentel_collector/src/transport.rs` — the retry loop of
  `HttpTransport::send_batch`;
* `src/opentel_collector/src/log_parser.rs` — `JsonLogParser`,
  `RegexLogParser` and `CompositeLogParser`;
* `src/opentel_collector/src/config.rs` — `Config::from_env` and
  `Config::validate`.

Conventions of the embedding:

* Rust `u64`/`usize` values are `Nat`; `u64` subtraction in the source is
  `saturating_sub`, which is exactly `Nat` subtraction; where a `u64`
  multiplication can overflow, the wrap-around of release-mode Rust is made
  explicit with `% 2 ^ 64`.
* `VecDeque` queues are Lean lists with the front at the head:
  `pop_front` is `List.drop 1`, `push_back` is `· ++ [x]`,
  `drain(..n)` removes `List.take n`.
* `HashMap<String, String>` is an association list updated by
  `assocInsert` (insert replaces an existing key, otherwise appends).
* Nondeterministic inputs of the code (the wall clock
  `current_timestamp()`, the random `batch_id`, `generate_trace_id()`,
  `generate_span_id()`, the crate version string, the outcome of each
  network attempt, the process environment) are explicit parameters.
* `serde_json::Value` is the inductive `Json`, restricted to
  integer-valued numbers (every number any claim touches is an integer);
  `json["k"]` is `Json.idx`, `as_u64` is `Json.asU64`, and so on.
  String-level JSON parsing is not modelled: functions that parse a line
  receive the line together with its (optional) parse result.
-/

/-- `a.or_else(|| b)` on Rust `Option`s. -/
def rustOr {α : Type} (a b : Option α) : Option α :=
  match a with
  | some x => some x
  | none => b

/-- Insertion into a `HashMap<String, String>`, modelled on an association
list: replaces the value of an existing key, otherwise appends the pair. -/
def assocInsert : List (String × String) → String → String → List (String × String)
  | [], k, v => [(k, v)]
  | (k', v') :: rest, k, v =>
    if k' = k then (k, v) :: rest else (k', v') :: assocInsert rest k v

/-- `LogLevel` from `telemetry.rs`. -/
inductive LogLevel
  | Trace
  | Debug
  | Info
  | Warn
  | Error
  | Fatal
deriving DecidableEq

/-- `SpanStatus` from `telemetry.rs`. -/
inductive SpanStatus
  | Ok
  | Error
  | Timeout
  | Cancelled
deriving DecidableEq

/-- Rust `str::to_uppercase` (the inputs the claims exercise are ASCII;
written on the character list so that it evaluates by reduction). -/
def toUpperStr (s : String) : String :=
  String.mk (s.toList.map Char.toUpper)

/-- `impl From<&str> for LogLevel` from `telemetry.rs`. -/
def LogLevel.fromStr (s : String) : LogLevel :=
  match toUpperStr s with
  | "TRACE" | "VERBOSE" => .Trace
  | "DEBUG" => .Debug
  | "INFO" | "INFORMATION" => .Info
  | "WARN" | "WARNING" => .Warn
  | "ERROR" | "ERR" => .Error
  | "FATAL" | "CRITICAL" => .Fatal
  | _ => .Info

/-- `impl From<&str> for SpanStatus` from `telemetry.rs`. -/
def SpanStatus.fromStr (s : String) : SpanStatus :=
  match toUpperStr s with
  | "OK" | "SUCCESS" | "COMPLETED" => .Ok
  | "ERROR" | "FAILED" | "FAILURE" => .Error
  | "TIMEOUT" | "TIMEDOUT" => .Timeout
  | "CANCELLED" | "CANCELED" | "ABORTED" => .Cancelled
  | _ => .Ok

/-- `LogEntry` from `telemetry.rs` (`namespace` is a Lean keyword, hence
the field name `namespace_`). -/
structure LogEntry where
  timestamp : Nat
  level : LogLevel
  message : String
  service_name : String
  pod_name : String
  namespace_ : String
  trace_id : Option String
  span_id : Option String
  attributes : List (String × String)
deriving DecidableEq

/-- `TraceSpan` from `telemetry.rs`. -/
structure TraceSpan where
  trace_id : String
  span_id : String
  parent_span_id : Option String
  operation_name : String
  start_time : Nat
  end_time : Nat
  duration_ms : Nat
  status : SpanStatus
  service_name : String
  tags : List (String × String)
deriving DecidableEq

/-- `BatchMetadata` from `telemetry.rs`. -/
structure BatchMetadata where
  collector_id : String
  batch_id : String
  timestamp : Nat
  source_pod : String
  source_namespace : String
  version : String
deriving DecidableEq

/-- `TelemetryBatch` from `telemetry.rs`. -/
structure TelemetryBatch where
  logs : List LogEntry
  spans : List TraceSpan
  metadata : BatchMetadata
deriving DecidableEq

/-- `TelemetryBatch::new`; the random `batch_id`, the clock reading and
the crate version are the parameters `bid`, `now`, `ver`. -/
def TelemetryBatch.new (logs : List LogEntry) (spans : List TraceSpan)
    (collector_id source_pod source_namespace : String)
    (bid : String) (ver : String) (now : Nat) : TelemetryBatch :=
  { logs := logs
    spans := spans
    metadata :=
      { collector_id := collector_id
        batch_id := bid
        timestamp := now
        source_pod := source_pod
        source_namespace := source_namespace
        version := ver } }

/-- `TelemetryBuffer` from `buffer.rs`: the two `VecDeque`s with their
configured cap and batch size. -/
structure TelemetryBuffer where
  logs : List LogEntry
  spans : List TraceSpan
  max_size : Nat
  batch_size : Nat
deriving DecidableEq

/-- `TelemetryBuffer::new`. -/
def TelemetryBuffer.new (max_size batch_size : Nat) : TelemetryBuffer :=
  { logs := [], spans := [], max_size := max_size, batch_size := batch_size }

/-- `TelemetryBuffer::add_log`: drop-oldest when the queue is at (or
above) the cap, then push to the back. -/
def TelemetryBuffer.addLog (b : TelemetryBuffer) (log_entry : LogEntry) : TelemetryBuffer :=
  let logs := if b.logs.length ≥ b.max_size then b.logs.drop 1 else b.logs
  { b with logs := logs ++ [log_entry] }

/-- `TelemetryBuffer::add_span`: same policy on the span queue. -/
def TelemetryBuffer.addSpan (b : TelemetryBuffer) (span : TraceSpan) : TelemetryBuffer :=
  let spans := if b.spans.length ≥ b.max_size then b.spans.drop 1 else b.spans
  { b with spans := spans ++ [span] }

/-- `TelemetryBuffer::drain_batch`: take up to `batch_size` from the front
of each queue; if both counts are zero, produce nothing and leave the
buffer untouched.  Returns the emitted batch (if any) together with the
buffer state after the call. -/
def TelemetryBuffer.drainBatch (b : TelemetryBuffer)
    (collector_id source_pod source_namespace : String)
    (bid ver : String) (now : Nat) : Option TelemetryBatch × TelemetryBuffer :=
  let log_count := min b.batch_size b.logs.length
  let span_count := min b.batch_size b.spans.length
  if log_count = 0 ∧ span_count = 0 then
    (none, b)
  else
    (some (TelemetryBatch.new (b.logs.take log_count) (b.spans.take span_count)
        collector_id source_pod source_namespace bid ver now),
     { b with logs := b.logs.drop log_count, spans := b.spans.drop span_count })

/-- `TelemetryBuffer::should_flush`.  The threshold `max_size * 3 / 4` is
usize arithmetic: the product `max_size * 3` wraps in release mode, hence
the explicit `% 2 ^ 64` before the floor division. -/
def TelemetryBuffer.shouldFlush (b : TelemetryBuffer) : Bool :=
  b.logs.length ≥ b.batch_size
    || b.spans.length ≥ b.batch_size
    || b.logs.length ≥ b.max_size * 3 % 2 ^ 64 / 4
    || b.spans.length ≥ b.max_size * 3 % 2 ^ 64 / 4

/-- An enqueue operation on a `TelemetryBuffer` (the operations claim C1
ranges over). -/
inductive BufOp
  | log (e : LogEntry)
  | span (s : TraceSpan)
deriving DecidableEq

/-- Run a sequence of enqueues against a buffer. -/
def applyBufOps (b : TelemetryBuffer) : List BufOp → TelemetryBuffer
  | [] => b
  | .log e :: ops => applyBufOps (b.addLog e) ops
  | .span s :: ops => applyBufOps (b.addSpan s) ops

/-- A concrete log record (used to build concrete buffer states). -/
def mkLog (msg : String) : LogEntry :=
  { timestamp := 0, level := .Info, message := msg, service_name := "svc"
    pod_name := "pod", namespace_ := "ns", trace_id := none, span_id := none
    attributes := [] }

/-- `BufferConfig` from `buffer.rs`.  The `flush_threshold : f64` field is
omitted: it is floating point and is read by no operation of the crate. -/
structure BufferConfig where
  max_size : Nat
  batch_size : Nat
deriving DecidableEq

/-- `PriorityTelemetryBuffer` from `buffer.rs`. -/
structure PriorityTelemetryBuffer where
  high_priority : TelemetryBuffer
  normal_priority : TelemetryBuffer
  config : BufferConfig
deriving DecidableEq

/-- `PriorityTelemetryBuffer::new`: the high sub-buffer gets a quarter of
the cap and half the batch size, the normal sub-buffer three quarters of
the cap and the full batch size (usize arithmetic: the divisions cannot
wrap, the product `max_size * 3` wraps in release mode, hence the
explicit `% 2 ^ 64`). -/
def PriorityTelemetryBuffer.new (config : BufferConfig) : PriorityTelemetryBuffer :=
  { high_priority := TelemetryBuffer.new (config.max_size / 4) (config.batch_size / 2)
    normal_priority := TelemetryBuffer.new (config.max_size * 3 % 2 ^ 64 / 4) config.batch_size
    config := config }

/-- `PriorityTelemetryBuffer::add_log`. -/
def PriorityTelemetryBuffer.addLog (p : PriorityTelemetryBuffer)
    (log_entry : LogEntry) (high_priority : Bool) : PriorityTelemetryBuffer :=
  if high_priority then
    { p with high_priority := p.high_priority.addLog log_entry }
  else
    { p with normal_priority := p.normal_priority.addLog log_entry }

/-- `PriorityTelemetryBuffer::add_span`. -/
def PriorityTelemetryBuffer.addSpan (p : PriorityTelemetryBuffer)
    (span : TraceSpan) (high_priority : Bool) : PriorityTelemetryBuffer :=
  if high_priority then
    { p with high_priority := p.high_priority.addSpan span }
  else
    { p with normal_priority := p.normal_priority.addSpan span }

/-- `PriorityTelemetryBuffer::drain_batch`: drain the high-priority
sub-buffer first; only when it produces nothing, drain the normal one. -/
def PriorityTelemetryBuffer.drainBatch (p : PriorityTelemetryBuffer)
    (collector_id source_pod source_namespace : String)
    (bid ver : String) (now : Nat) : Option TelemetryBatch × PriorityTelemetryBuffer :=
  match p.high_priority.drainBatch collector_id source_pod source_namespace bid ver now with
  | (some batch, high') => (some batch, { p with high_priority := high' })
  | (none, high') =>
    let r := p.normal_priority.drainBatch collector_id source_pod source_namespace bid ver now
    (r.1, { p with high_priority := high', normal_priority := r.2 })

/-- An operation on a `PriorityTelemetryBuffer` (the operations claim C9
ranges over): a prioritized enqueue, or a drain with its call-site
parameters. -/
inductive POp
  | log (e : LogEntry) (high_priority : Bool)
  | span (s : TraceSpan) (high_priority : Bool)
  | drain (collector_id source_pod source_namespace bid ver : String) (now : Nat)

/-- Run a sequence of operations against a priority buffer (a drain's
emitted batch is discarded; only the state evolution matters here). -/
def applyPOps (p : PriorityTelemetryBuffer) : List POp → PriorityTelemetryBuffer
  | [] => p
  | .log e hp :: ops => applyPOps (p.addLog e hp) ops
  | .span s hp :: ops => applyPOps (p.addSpan s hp) ops
  | .drain cid sp ns bid ver now :: ops => applyPOps (p.drainBatch cid sp ns bid ver now).2 ops

/-- The sub-sequence of high-priority enqueues of a `POp` sequence, as
plain buffer operations (these are the only operations `buffer.rs` ever
applies to the high-priority sub-buffer besides its drain). -/
def hpOps : List POp → List BufOp
  | [] => []
  | .log e true :: ops => .log e :: hpOps ops
  | .span s true :: ops => .span s :: hpOps ops
  | .log _ false :: ops => hpOps ops
  | .span _ false :: ops => hpOps ops
  | .drain _ _ _ _ _ _ :: ops => hpOps ops

/-- The result of `HttpTransport::send_batch`: whether some attempt
succeeded, how many attempts `send_batch_attempt` were made, and the list
of inserted backoff delays (in milliseconds, front first). -/
structure SendResult where
  succeeded : Bool
  attempts : Nat
  delays : List Nat
deriving DecidableEq

/-- Unwrapped reference version of the retry loop of
`HttpTransport::send_batch`.  `outcomes i` is the success of the `i`-th
call of `send_batch_attempt` (0-indexed); `attempt` is the loop counter
taken as an unbounded natural and `remaining` the loop measure
`max_retries + 1 - attempt`, so the `while attempt <= max_retries` guard
is `remaining > 0`; the delay before the retry is
`retry_backoff_ms * 2_u64.pow(attempt + 1 - 1)` — u64 arithmetic, hence
the explicit `% 2 ^ 64`.  The source's counter is a `u32` that wraps in
release mode; the faithful model is `sendRun` below, and
`sendRun_eq_sendFrom` shows this reference computes its result whenever
the counter cannot wrap (`max_retries + 1 < 2 ^ 32`). -/
def sendFrom (outcomes : Nat → Bool) (retry_backoff_ms : Nat) :
    (attempt remaining : Nat) → SendResult
  | attempt, 0 => { succeeded := false, attempts := attempt, delays := [] }
  | attempt, remaining + 1 =>
    if outcomes attempt then
      { succeeded := true, attempts := attempt + 1, delays := [] }
    else if remaining = 0 then
      { succeeded := false, attempts := attempt + 1, delays := [] }
    else
      let backoff_ms := retry_backoff_ms * 2 ^ attempt % 2 ^ 64
      let r := sendFrom outcomes retry_backoff_ms (attempt + 1) remaining
      { succeeded := r.succeeded, attempts := r.attempts, delays := backoff_ms :: r.delays }

/-- The retry loop of `HttpTransport::send_batch` from `transport.rs`,
with the `u32` attempt counter wrapping as in release mode.  `outcomes i`
is the success of the `i`-th call of `send_batch_attempt` and `calls`
counts those calls; `attempt` is the u32 loop counter, so the source's
`attempt += 1` is `(attempt + 1) % 2 ^ 32` (used in the backoff guard, in
the backoff exponent and as the next counter value), the u32 subtraction
`attempt - 1` of the exponent is `+ (2 ^ 32 - 1)` followed by `% 2 ^ 32`,
and `2_u64.pow` with the following multiplication wrap in u64, hence
`% 2 ^ 64`.  `fuel` bounds the number of loop iterations simulated:
`none` means the loop is still running after `fuel` iterations, so a run
that is `none` for every `fuel` never returns. -/
def sendRun (outcomes : Nat → Bool) (max_retries retry_backoff_ms : Nat) :
    (fuel attempt calls : Nat) → Option SendResult
  | 0, _, _ => none
  | fuel + 1, attempt, calls =>
    if attempt ≤ max_retries then
      if outcomes calls then
        some { succeeded := true, attempts := calls + 1, delays := [] }
      else if (attempt + 1) % 2 ^ 32 ≤ max_retries then
        match sendRun outcomes max_retries retry_backoff_ms fuel
            ((attempt + 1) % 2 ^ 32) (calls + 1) with
        | some r =>
          some { r with delays :=
            retry_backoff_ms *
                2 ^ (((attempt + 1) % 2 ^ 32 + (2 ^ 32 - 1)) % 2 ^ 32) % 2 ^ 64
              :: r.delays }
        | none => none
      else
        some { succeeded := false, attempts := calls + 1, delays := [] }
    else
      some { succeeded := false, attempts := calls, delays := [] }

/-- `HttpTransport::send_batch`: the loop starts with `attempt = 0` and
no calls made. -/
def sendBatch (outcomes : Nat → Bool) (max_retries retry_backoff_ms fuel : Nat) :
    Option SendResult :=
  sendRun outcomes max_retries retry_backoff_ms fuel 0 0

/-- `serde_json::Value`, restricted to integer-valued numbers (every JSON
number the claims touch is an integer).  Objects are field lists with
distinct keys, as produced by serde's parser. -/
inductive Json
  | null
  | bool (b : Bool)
  | num (n : Int)
  | str (s : String)
  | arr (elems : List Json)
  | obj (fields : List (String × Json))

/-- `json["key"]` on a `serde_json::Value`: the field's value when the
value is an object holding the key, `Null` otherwise. -/
def Json.idx (j : Json) (k : String) : Json :=
  match j with
  | .obj fields => (fields.lookup k).getD .null
  | _ => .null

/-- `Value::get(key).is_some()`. -/
def Json.hasKey (j : Json) (k : String) : Bool :=
  match j with
  | .obj fields => (fields.lookup k).isSome
  | _ => false

/-- `Value::as_u64`: a number that is a non-negative integer fitting in 64
bits. -/
def Json.asU64 (j : Json) : Option Nat :=
  match j with
  | .num n => if 0 ≤ n ∧ n < 2 ^ 64 then some n.toNat else none
  | _ => none

/-- `Value::as_str`. -/
def Json.asStr (j : Json) : Option String :=
  match j with
  | .str s => some s
  | _ => none

/-- `Value::as_object`, as the field list. -/
def Json.asObject (j : Json) : Option (List (String × Json)) :=
  match j with
  | .obj fields => some fields
  | _ => none

/-- The loop that copies the string-valued entries of a JSON object into
a `HashMap<String, String>` (used for `attributes` and `tags`). -/
def strEntries (start : List (String × String)) (fields : List (String × Json)) :
    List (String × String) :=
  fields.foldl
    (fun m kv =>
      match kv.2.asStr with
      | some v => assocInsert m kv.1 v
      | none => m)
    start

/-- `JsonLogParser::parse_log` from `log_parser.rs`, applied to an already
parsed `Json` value (`serde_json::from_str` is not modelled; a parse
failure never reaches this code).  `now` is the `current_timestamp()`
reading. -/
def jsonParseLog (j : Json) (trace_correlation : Bool)
    (service_name pod_name namespace_ : String) (now : Nat) : Option LogEntry :=
  let timestamp :=
    (rustOr (rustOr (j.idx "timestamp").asU64 (j.idx "@timestamp").asU64)
      (j.idx "time").asU64).getD now
  let level :=
    (rustOr (rustOr (j.idx "level").asStr (j.idx "severity").asStr)
      (j.idx "log_level").asStr).getD "INFO"
  let message :=
    (rustOr (rustOr (j.idx "message").asStr (j.idx "msg").asStr)
      (j.idx "text").asStr).getD ""
  if message = "" then
    none
  else
    let trace_id :=
      if trace_correlation then
        rustOr (rustOr (j.idx "trace_id").asStr (j.idx "traceId").asStr)
          (j.idx "trace-id").asStr
      else none
    let span_id :=
      if trace_correlation then
        rustOr (rustOr (j.idx "span_id").asStr (j.idx "spanId").asStr)
          (j.idx "span-id").asStr
      else none
    let attrs0 :=
      match (j.idx "attributes").asObject with
      | some fields => strEntries [] fields
      | none => []
    let attrs :=
      ["user_id", "request_id", "session_id", "correlation_id"].foldl
        (fun m k =>
          match (j.idx k).asStr with
          | some v => assocInsert m k v
          | none => m)
        attrs0
    some
      { timestamp := timestamp
        level := LogLevel.fromStr level
        message := message
        service_name := service_name
        pod_name := pod_name
        namespace_ := namespace_
        trace_id := trace_id
        span_id := span_id
        attributes := attrs }

/-- `JsonLogParser::parse_span` from `log_parser.rs`, applied to an
already parsed `Json` value.  `gen_trace_id` / `gen_span_id` stand for
the random `generate_trace_id()` / `generate_span_id()` outputs and `now`
for `current_timestamp()`.  The `u64` product `(end - start) * 1000`
wraps, hence the `% 2 ^ 64`; the subtraction is `saturating_sub`, which
is `Nat` subtraction. -/
def jsonParseSpan (j : Json) (service_name : String)
    (gen_trace_id gen_span_id : String) (now : Nat) : Option TraceSpan :=
  if !j.hasKey "span_id" && !j.hasKey "spanId" then
    none
  else
    let trace_id := (rustOr (j.idx "trace_id").asStr (j.idx "traceId").asStr).getD gen_trace_id
    let span_id := (rustOr (j.idx "span_id").asStr (j.idx "spanId").asStr).getD gen_span_id
    let operation_name :=
      (rustOr (rustOr (j.idx "operation").asStr (j.idx "operation_name").asStr)
        (j.idx "method").asStr).getD "unknown"
    let start_time := (rustOr (j.idx "start_time").asU64 (j.idx "startTime").asU64).getD now
    let end_time := (rustOr (j.idx "end_time").asU64 (j.idx "endTime").asU64).getD start_time
    let duration_ms :=
      (rustOr (j.idx "duration_ms").asU64 (j.idx "duration").asU64).getD
        ((end_time - start_time) * 1000 % 2 ^ 64)
    let status := (rustOr (j.idx "status").asStr (j.idx "span_status").asStr).getD "OK"
    let tags :=
      match (j.idx "tags").asObject with
      | some fields => strEntries [] fields
      | none => []
    some
      { trace_id := trace_id
        span_id := span_id
        parent_span_id := rustOr (j.idx "parent_span_id").asStr (j.idx "parentSpanId").asStr
        operation_name := operation_name
        start_time := start_time
        end_time := end_time
        duration_ms := duration_ms
        status := SpanStatus.fromStr status
        service_name := service_name
        tags := tags }

/-!
The `RegexLogParser` of `log_parser.rs` matches five anchored patterns.
Every repetition in those patterns is a `+` or `{n}` over a single
character class, so each pattern is embedded as a hand-rolled matcher
built from two combinators: `classN` (exactly `n` characters of a class)
and `plusThen` (greedy one-or-more of a class, backtracking into its
continuation), which together give exactly the leftmost-greedy capture
semantics of the `regex` crate on these patterns.  `\w`, `\s`, `\d` and
`.` are the ASCII readings (every input a claim exercises is ASCII).
-/

/-- Rust regex `\w` (ASCII reading). -/
def isWordChar (c : Char) : Bool :=
  c.isAlphanum || c = '_'

/-- Exactly `n` characters of class `cls`; returns them and the rest. -/
def classN (cls : Char → Bool) : Nat → List Char → Option (List Char × List Char)
  | 0, l => some ([], l)
  | _ + 1, [] => none
  | n + 1, c :: cs =>
    if cls c then (classN cls n cs).map (fun p => (c :: p.1, p.2)) else none

/-- A single literal character. -/
def lit (c : Char) : List Char → Option (List Char)
  | [] => none
  | x :: xs => if x = c then some xs else none

/-- Backtracking worker of `plusThen`: try the continuation `k` on the
first `i` characters of `pre` (longest first), giving characters back one
by one on failure; a `+` must consume at least one character. -/
def backGo {α : Type} (k : List Char → List Char → Option α)
    (pre rest : List Char) : Nat → Option α
  | 0 => none
  | i + 1 =>
    match k (pre.take (i + 1)) (pre.drop (i + 1) ++ rest) with
    | some r => some r
    | none => backGo k pre rest i

/-- Greedy `cls+` followed by the continuation `k`, which receives the
consumed run and the remaining input; longest run first, backtracking. -/
def plusThen {α : Type} (cls : Char → Bool) (l : List Char)
    (k : List Char → List Char → Option α) : Option α :=
  backGo k (l.takeWhile cls) (l.dropWhile cls) (l.takeWhile cls).length

/-- The captures a `LogPattern` of `log_parser.rs` can produce: the level
and message groups (always present in the five patterns), and the
optional timestamp / trace id / span id groups. -/
structure RegexCaptures where
  level : String
  message : String
  ts_str : Option String
  trace_id : Option String
  span_id : Option String
deriving DecidableEq

/-- Pattern 1 of `default_patterns`:
the common application format `[ts] LEVEL: message`. -/
def matchPattern1 (l : List Char) : Option RegexCaptures :=
  match lit '[' l with
  | none => none
  | some r1 =>
    plusThen (fun c => c ≠ ']') r1 (fun ts r2 =>
      match lit ']' r2 with
      | none => none
      | some r3 =>
        plusThen Char.isWhitespace r3 (fun _ r4 =>
          plusThen isWordChar r4 (fun lvl r5 =>
            match lit ':' r5 with
            | none => none
            | some r6 =>
              plusThen Char.isWhitespace r6 (fun _ r7 =>
                plusThen (fun c => c ≠ '\n') r7 (fun msg r8 =>
                  if r8 = [] then
                    some { level := String.mk lvl, message := String.mk msg
                           ts_str := some (String.mk ts), trace_id := none, span_id := none }
                  else none)))))

/-- Pattern 2 of `default_patterns`: the nginx style
`yyyy/mm/dd hh:mm:ss [level] message`; the first capture group spans the
whole date-time, whitespace run included. -/
def matchPattern2 (l : List Char) : Option RegexCaptures := do
  let (d1, r1) ← classN Char.isDigit 4 l
  let r2 ← lit '/' r1
  let (d2, r3) ← classN Char.isDigit 2 r2
  let r4 ← lit '/' r3
  let (d3, r5) ← classN Char.isDigit 2 r4
  plusThen Char.isWhitespace r5 (fun sp r6 => do
    let (t1, r7) ← classN Char.isDigit 2 r6
    let r8 ← lit ':' r7
    let (t2, r9) ← classN Char.isDigit 2 r8
    let r10 ← lit ':' r9
    let (t3, r11) ← classN Char.isDigit 2 r10
    let ts := d1 ++ '/' :: d2 ++ '/' :: d3 ++ sp ++ t1 ++ ':' :: t2 ++ ':' :: t3
    plusThen Char.isWhitespace r11 (fun _ r12 => do
      let r13 ← lit '[' r12
      plusThen isWordChar r13 (fun lvl r14 => do
        let r15 ← lit ']' r14
        plusThen Char.isWhitespace r15 (fun _ r16 =>
          plusThen (fun c => c ≠ '\n') r16 (fun msg r17 =>
            if r17 = [] then
              some { level := String.mk lvl, message := String.mk msg
                     ts_str := some (String.mk ts), trace_id := none, span_id := none }
            else none)))))

/-- Pattern 3, tail after the closing `]`: the regex part
`\s+---\s+(.+)$`.  `ts`, `lvl`, `tr`, `sp_id` carry the captures already
made. -/
def matchPattern3Msg (ts lvl tr sp_id : List Char) (l : List Char) : Option RegexCaptures :=
  plusThen Char.isWhitespace l (fun _ r1 => do
    let r2 ← lit '-' r1
    let r3 ← lit '-' r2
    let r4 ← lit '-' r3
    plusThen Char.isWhitespace r4 (fun _ r5 =>
      plusThen (fun c => c ≠ '\n') r5 (fun msg r6 =>
        if r6 = [] then
          some { level := String.mk lvl, message := String.mk msg
                 ts_str := some (String.mk ts)
                 trace_id := some (String.mk tr)
                 span_id := some (String.mk sp_id) }
        else none)))

/-- Pattern 3, the bracketed ids: the regex part `\[([^,]+),([^\]]+)\]`
followed by `matchPattern3Msg`. -/
def matchPattern3Ids (ts lvl : List Char) (l : List Char) : Option RegexCaptures := do
  let r1 ← lit '[' l
  plusThen (fun c => c ≠ ',') r1 (fun tr r2 => do
    let r3 ← lit ',' r2
    plusThen (fun c => c ≠ ']') r3 (fun sp_id r4 => do
      let r5 ← lit ']' r4
      matchPattern3Msg ts lvl tr sp_id r5))

/-- Pattern 3, the level word: the regex part `(\w+)\s+` followed by
`matchPattern3Ids`. -/
def matchPattern3Level (ts : List Char) (l : List Char) : Option RegexCaptures :=
  plusThen isWordChar l (fun lvl r1 =>
    plusThen Char.isWhitespace r1 (fun _ r2 => matchPattern3Ids ts lvl r2))

/-- Pattern 3 of `default_patterns`: the Java / Spring Boot style
`yyyy-mm-dd hh:mm:ss.mmm LEVEL [trace,span] --- message`; the first
capture group spans the whole date-time.  Split into the helpers above
purely for elaboration size; the continuations compose exactly as in the
single regex. -/
def matchPattern3 (l : List Char) : Option RegexCaptures := do
  let (d1, r1) ← classN Char.isDigit 4 l
  let r2 ← lit '-' r1
  let (d2, r3) ← classN Char.isDigit 2 r2
  let r4 ← lit '-' r3
  let (d3, r5) ← classN Char.isDigit 2 r4
  plusThen Char.isWhitespace r5 (fun sp r6 => do
    let (t1, r7) ← classN Char.isDigit 2 r6
    let r8 ← lit ':' r7
    let (t2, r9) ← classN Char.isDigit 2 r8
    let r10 ← lit ':' r9
    let (t3, r11) ← classN Char.isDigit 2 r10
    let r12 ← lit '.' r11
    let (ms, r13) ← classN Char.isDigit 3 r12
    let ts := d1 ++ '-' :: d2 ++ '-' :: d3 ++ sp ++ t1 ++ ':' :: t2 ++ ':' :: t3 ++ '.' :: ms
    plusThen Char.isWhitespace r13 (fun _ r14 => matchPattern3Level ts r14))

/-- Pattern 4 of `default_patterns`: the simple `LEVEL: message` format. -/
def matchPattern4 (l : List Char) : Option RegexCaptures :=
  plusThen isWordChar l (fun lvl r1 =>
    match lit ':' r1 with
    | none => none
    | some r2 =>
      plusThen Char.isWhitespace r2 (fun _ r3 =>
        plusThen (fun c => c ≠ '\n') r3 (fun msg r4 =>
          if r4 = [] then
            some { level := String.mk lvl, message := String.mk msg
                   ts_str := none, trace_id := none, span_id := none }
          else none)))

/-- Pattern 5 of `default_patterns`: the Python logging format
`LEVEL:module.name:message`. -/
def matchPattern5 (l : List Char) : Option RegexCaptures :=
  plusThen isWordChar l (fun lvl r1 =>
    match lit ':' r1 with
    | none => none
    | some r2 =>
      plusThen (fun c => isWordChar c || c = '.') r2 (fun _ r3 =>
        match lit ':' r3 with
        | none => none
        | some r4 =>
          plusThen (fun c => c ≠ '\n') r4 (fun msg r5 =>
            if r5 = [] then
              some { level := String.mk lvl, message := String.mk msg
                     ts_str := none, trace_id := none, span_id := none }
            else none)))

/-- The five default patterns, in the order `default_patterns` builds
them. -/
def regexMatchers : List (List Char → Option RegexCaptures) :=
  [matchPattern1, matchPattern2, matchPattern3, matchPattern4, matchPattern5]

/-- The pattern loop of `RegexLogParser::parse_log`: first matching
pattern wins; a match with an empty message group is skipped
(the `continue`). -/
def regexTryFrom : List (List Char → Option RegexCaptures) → List Char → Option RegexCaptures
  | [], _ => none
  | m :: ms, l =>
    match m l with
    | some caps => if caps.message = "" then regexTryFrom ms l else some caps
    | none => regexTryFrom ms l

/-- `RegexLogParser::parse_log` from `log_parser.rs`.  `parseTs` stands
for the chrono-based free function `parse_timestamp` (its internals are
not modelled; no claim exercises a timestamp capture), `now` for
`current_timestamp()`.  When no pattern matches, the whole line becomes
an Info record — this parser always produces a record. -/
def regexParseLog (line : String) (trace_correlation : Bool)
    (service_name pod_name namespace_ : String) (now : Nat)
    (parseTs : String → Option Nat) : Option LogEntry :=
  match regexTryFrom regexMatchers line.toList with
  | some caps =>
    let timestamp :=
      match caps.ts_str with
      | some ts => (parseTs ts).getD now
      | none => now
    some
      { timestamp := timestamp
        level := LogLevel.fromStr caps.level
        message := caps.message
        service_name := service_name
        pod_name := pod_name
        namespace_ := namespace_
        trace_id := if trace_correlation then caps.trace_id else none
        span_id := if trace_correlation then caps.span_id else none
        attributes := [] }
  | none =>
    some
      { timestamp := now
        level := .Info
        message := line
        service_name := service_name
        pod_name := pod_name
        namespace_ := namespace_
        trace_id := none
        span_id := none
        attributes := [] }

/-- Rust `str::trim` on a character list (whitespace off both ends). -/
def trimChars (l : List Char) : List Char :=
  ((l.dropWhile Char.isWhitespace).reverse.dropWhile Char.isWhitespace).reverse

/-- The composite parser's brace test `line.trim().starts_with` on the
left-brace character: whitespace is stripped from
both ends and the first remaining character compared (written on the
character list so that it evaluates by reduction). -/
def startsWithLBrace (line : String) : Bool :=
  match trimChars line.toList with
  | c :: _ => c = '\x7b'
  | [] => false

/-- `CompositeLogParser::parse_log` from `log_parser.rs`.  `parsed` is
the `serde_json::from_str` result for `line` (`none` for a parse error).
A line whose trimmed form starts with a brace is tried as JSON; only an
`Ok(Some(log))` outcome is returned directly — both `Ok(None)` and
`Err(_)` fall through to the regex parser. -/
def compositeParseLog (line : String) (parsed : Option Json) (trace_correlation : Bool)
    (service_name pod_name namespace_ : String) (now : Nat)
    (parseTs : String → Option Nat) : Option LogEntry :=
  if startsWithLBrace line then
    match parsed with
    | some j =>
      match jsonParseLog j trace_correlation service_name pod_name namespace_ now with
      | some log => some log
      | none => regexParseLog line trace_correlation service_name pod_name namespace_ now parseTs
    | none => regexParseLog line trace_correlation service_name pod_name namespace_ now parseTs
  else
    regexParseLog line trace_correlation service_name pod_name namespace_ now parseTs

/-- Rust `str::split(c)`: always yields at least one segment ( splitting
the empty string yields one empty segment). -/
def rustSplit (c : Char) : List Char → List (List Char)
  | [] => [[]]
  | x :: xs =>
    match rustSplit c xs with
    | [] => [[]]
    | h :: t => if x = c then [] :: h :: t else (x :: h) :: t

/-- Decimal value of a non-empty all-digit character list. -/
def digitsToNat (cs : List Char) : Option Nat :=
  if cs ≠ [] ∧ cs.all Char.isDigit then
    some (cs.foldl (fun a c => a * 10 + (c.toNat - 48)) 0)
  else none

/-- Rust `str::parse` for an unsigned integer type whose exclusive upper
bound is `bound`: an optional leading `+`, then decimal digits; overflow
is a parse error. -/
def rustParseNum (bound : Nat) (s : String) : Option Nat :=
  let cs :=
    match s.toList with
    | '+' :: rest => rest
    | cs => cs
  match digitsToNat cs with
  | some v => if v < bound then some v else none
  | none => none

/-- `Config` from `config.rs`; the two `Duration` fields are kept in
milliseconds. -/
structure Config where
  service_name : String
  pod_name : String
  namespace_ : String
  gateway_url : String
  log_paths : List String
  batch_size : Nat
  flush_interval_ms : Nat
  max_retries : Nat
  retry_backoff_ms : Nat
  max_buffer_size : Nat
  http_timeout_ms : Nat
  parse_structured_logs : Bool
  enable_trace_correlation : Bool
deriving DecidableEq

/-- `impl Default for Config`. -/
def Config.default : Config :=
  { service_name := "unknown-service"
    pod_name := "unknown-pod"
    namespace_ := "default"
    gateway_url := "http://telemetry-gateway:9090"
    log_paths := ["/var/log/app/application.log"]
    batch_size := 100
    flush_interval_ms := 30 * 1000
    max_retries := 3
    retry_backoff_ms := 1000
    max_buffer_size := 10000
    http_timeout_ms := 10 * 1000
    parse_structured_logs := true
    enable_trace_correlation := true }

/-- Rust `str::to_lowercase` (ASCII reading, on the character list). -/
def toLowerStr (s : String) : String :=
  String.mk (s.toList.map Char.toLower)

/-- `Config::from_env` from `config.rs`.  `env` is the process
environment.  The source mutates one distinct field per environment
variable, never reading the config back, so the update sequence is the
product of independent per-field computations written here as one record.
An unset variable keeps the default; an unparsable numeric value keeps
the default (`usize`/`u64` parse bound `2 ^ 64`, `u32` bound `2 ^ 32`);
`LOG_PATHS` is split on commas and each segment trimmed. -/
def Config.fromEnv (env : String → Option String) : Config :=
  { service_name := (env "SERVICE_NAME").getD Config.default.service_name
    pod_name := (env "POD_NAME").getD Config.default.pod_name
    namespace_ := (env "NAMESPACE").getD Config.default.namespace_
    gateway_url := (env "GATEWAY_URL").getD Config.default.gateway_url
    log_paths :=
      match env "LOG_PATHS" with
      | some s => (rustSplit ',' s.toList).map (fun seg => String.mk (trimChars seg))
      | none => Config.default.log_paths
    batch_size :=
      ((env "BATCH_SIZE").bind (rustParseNum (2 ^ 64))).getD Config.default.batch_size
    flush_interval_ms :=
      match (env "FLUSH_INTERVAL_SECONDS").bind (rustParseNum (2 ^ 64)) with
      | some seconds => seconds * 1000
      | none => Config.default.flush_interval_ms
    max_retries :=
      ((env "MAX_RETRIES").bind (rustParseNum (2 ^ 32))).getD Config.default.max_retries
    retry_backoff_ms :=
      ((env "RETRY_BACKOFF_MS").bind (rustParseNum (2 ^ 64))).getD Config.default.retry_backoff_ms
    max_buffer_size :=
      ((env "MAX_BUFFER_SIZE").bind (rustParseNum (2 ^ 64))).getD Config.default.max_buffer_size
    http_timeout_ms :=
      match (env "HTTP_TIMEOUT_SECONDS").bind (rustParseNum (2 ^ 64)) with
      | some seconds => seconds * 1000
      | none => Config.default.http_timeout_ms
    parse_structured_logs :=
      match env "PARSE_STRUCTURED_LOGS" with
      | some s => toLowerStr s = "true"
      | none => Config.default.parse_structured_logs
    enable_trace_correlation :=
      match env "ENABLE_TRACE_CORRELATION" with
      | some s => toLowerStr s = "true"
      | none => Config.default.enable_trace_correlation }

/-- `Config::validate` from `config.rs`: the first failing check wins. -/
def Config.validate (c : Config) : Except String Unit :=
  if c.service_name = "" then .error "service_name cannot be empty"
  else if c.pod_name = "" then .error "pod_name cannot be empty"
  else if c.namespace_ = "" then .error "namespace cannot be empty"
  else if c.gateway_url = "" then .error "gateway_url cannot be empty"
  else if c.log_paths = [] then .error "at least one log path must be specified"
  else if c.batch_size = 0 then .error "batch_size must be greater than 0"
  else if c.max_buffer_size = 0 then .error "max_buffer_size must be greater than 0"
  else .ok ()

/-!
Concrete inputs used by the witnesses and counterexamples, and the one
definition written from the spec's words rather than from the source
(`specShouldFlush75`, compared against `TelemetryBuffer.shouldFlush`).
-/

/-- Modelled from the spec: `should_flush` is claimed true exactly when a
queue has reached `batch_size` or has exceeded 75 % of the cap; `count`
exceeds 75 % of `max_size` iff `4 * count > 3 * max_size` (exact rational
comparison). -/
def specShouldFlush75 (b : TelemetryBuffer) : Bool :=
  b.logs.length ≥ b.batch_size
    || b.spans.length ≥ b.batch_size
    || 4 * b.logs.length > 3 * b.max_size
    || 4 * b.spans.length > 3 * b.max_size

/-- A buffer state with 7 queued logs under cap 10: `7 ≥ 10 * 3 / 4` but
`7` does not exceed `7.5`. -/
def c8Buffer : TelemetryBuffer :=
  { logs := List.replicate 7 (mkLog "x"), spans := [], max_size := 10, batch_size := 100 }

/-- A priority buffer whose high sub-buffer holds one record. -/
def c6Priority : PriorityTelemetryBuffer :=
  { high_priority := { logs := [mkLog "E"], spans := [], max_size := 25, batch_size := 50 }
    normal_priority := { logs := [mkLog "N"], spans := [], max_size := 75, batch_size := 100 }
    config := { max_size := 100, batch_size := 100 } }

/-- The parsed form of the boundary-scenario line
`{"timestamp":1701234567,"level":"ERROR","message":"Test error","trace_id":"abc123","span_id":"def456"}`. -/
def c5Json : Json :=
  .obj [("timestamp", .num 1701234567), ("level", .str "ERROR"),
        ("message", .str "Test error"), ("trace_id", .str "abc123"),
        ("span_id", .str "def456")]

/-- A JSON line with no `message` / `msg` / `text` key. -/
def c3Line : String := "\x7b\"level\":\"INFO\"\x7d"

/-- The parsed form of `c3Line`. -/
def c3Json : Json := .obj [("level", .str "INFO")]

/-- A span line whose `(end - start) * 1000` product overflows u64:
`2 ^ 61 * 1000 = 125 * 2 ^ 64` wraps to 0. -/
def c7Json : Json :=
  .obj [("span_id", .str "s"), ("start_time", .num 0), ("end_time", .num (2 ^ 61))]

/-- A small span line with start and end times and no duration key. -/
def c7SmallJson : Json :=
  .obj [("span_id", .str "x"), ("start_time", .num 3), ("end_time", .num 5)]

/-- An environment where only `LOG_PATHS` is set, to the empty string. -/
def envLP : String → Option String :=
  fun k => if k = "LOG_PATHS" then some "" else none

/-!
Helper lemmas about the plain buffer.
-/

/-- The length of the log queue after `add_log`, as one formula. -/
theorem addLog_logs_length (b : TelemetryBuffer) (e : LogEntry) :
    (b.addLog e).logs.length =
      (if b.max_size ≤ b.logs.length then b.logs.length - 1 else b.logs.length) + 1 := by
  simp only [TelemetryBuffer.addLog, ge_iff_le]
  split <;> simp

/-- The length of the span queue after `add_span`, as one formula. -/
theorem addSpan_spans_length (b : TelemetryBuffer) (s : TraceSpan) :
    (b.addSpan s).spans.length =
      (if b.max_size ≤ b.spans.length then b.spans.length - 1 else b.spans.length) + 1 := by
  simp only [TelemetryBuffer.addSpan, ge_iff_le]
  split <;> simp

theorem addLog_spans (b : TelemetryBuffer) (e : LogEntry) : (b.addLog e).spans = b.spans := rfl

theorem addLog_max_size (b : TelemetryBuffer) (e : LogEntry) :
    (b.addLog e).max_size = b.max_size := rfl

theorem addLog_batch_size (b : TelemetryBuffer) (e : LogEntry) :
    (b.addLog e).batch_size = b.batch_size := rfl

theorem addSpan_logs (b : TelemetryBuffer) (s : TraceSpan) : (b.addSpan s).logs = b.logs := rfl

theorem addSpan_max_size (b : TelemetryBuffer) (s : TraceSpan) :
    (b.addSpan s).max_size = b.max_size := rfl

theorem addSpan_batch_size (b : TelemetryBuffer) (s : TraceSpan) :
    (b.addSpan s).batch_size = b.batch_size := rfl

/-- Both queue-length caps are preserved by every enqueue sequence, when
the cap is positive. -/
theorem applyBufOps_length_le (ops : List BufOp) :
    ∀ b : TelemetryBuffer, 1 ≤ b.max_size →
      b.logs.length ≤ b.max_size → b.spans.length ≤ b.max_size →
      (applyBufOps b ops).logs.length ≤ b.max_size ∧
        (applyBufOps b ops).spans.length ≤ b.max_size := by
  induction ops with
  | nil => intro b _ hl hs; exact ⟨hl, hs⟩
  | cons op ops ih =>
    intro b hmax hl hs
    cases op with
    | log e =>
      have h1 : (b.addLog e).logs.length ≤ b.max_size := by
        rw [addLog_logs_length]; split <;> omega
      have := ih (b.addLog e) (by rw [addLog_max_size]; exact hmax)
        (by rw [addLog_max_size]; exact h1)
        (by rw [addLog_max_size, addLog_spans]; exact hs)
      rw [addLog_max_size] at this
      exact this
    | span s =>
      have h1 : (b.addSpan s).spans.length ≤ b.max_size := by
        rw [addSpan_spans_length]; split <;> omega
      have := ih (b.addSpan s) (by rw [addSpan_max_size]; exact hmax)
        (by rw [addSpan_max_size, addSpan_logs]; exact hl)
        (by rw [addSpan_max_size]; exact h1)
      rw [addSpan_max_size] at this
      exact this

/-- C1 refuted as stated: a buffer with cap `max_size = 0` still admits
the enqueue (`pop_front` of the empty queue is a no-op), so the queue
length reaches 1 and exceeds the configured cap. -/
theorem c1_counterexample :
    ((TelemetryBuffer.new 0 10).addLog (mkLog "m")).logs.length >
      ((TelemetryBuffer.new 0 10)).max_size := by decide

/-- C1 (amended): provided `max_size ≥ 1`, for every sequence of
`add_log` / `add_span` operations no queue length ever exceeds the cap;
an enqueue onto a queue already at cap discards the oldest element and
appends the new one; and enqueuing m0..m4 into a cap-2 buffer leaves the
log queue exactly `[m3, m4]`. -/
theorem c1_buffer_cap :
    (∀ max_size batch_size : Nat, ∀ ops : List BufOp, 1 ≤ max_size →
      (applyBufOps (TelemetryBuffer.new max_size batch_size) ops).logs.length ≤ max_size ∧
        (applyBufOps (TelemetryBuffer.new max_size batch_size) ops).spans.length ≤ max_size) ∧
    (∀ (b : TelemetryBuffer) (e : LogEntry), b.logs.length = b.max_size →
      (b.addLog e).logs = b.logs.drop 1 ++ [e]) ∧
    (∀ (b : TelemetryBuffer) (s : TraceSpan), b.spans.length = b.max_size →
      (b.addSpan s).spans = b.spans.drop 1 ++ [s]) ∧
    (applyBufOps (TelemetryBuffer.new 2 10)
        [.log (mkLog "m0"), .log (mkLog "m1"), .log (mkLog "m2"),
         .log (mkLog "m3"), .log (mkLog "m4")]).logs = [mkLog "m3", mkLog "m4"] := by
  refine ⟨?_, ?_, ?_, by decide⟩
  · intro max_size batch_size ops hmax
    exact applyBufOps_length_le ops (TelemetryBuffer.new max_size batch_size) hmax
      (by simp [TelemetryBuffer.new]) (by simp [TelemetryBuffer.new])
  · intro b e h
    simp [TelemetryBuffer.addLog, h]
  · intro b s h
    simp [TelemetryBuffer.addSpan, h]

/-- Witness for C1: the cap bound evaluated on a concrete run. -/
theorem c1_buffer_cap_witness :
    (applyBufOps (TelemetryBuffer.new 1 5) [.log (mkLog "a"), .log (mkLog "b")]).logs.length ≤ 1 :=
  (c1_buffer_cap.1 1 5 [.log (mkLog "a"), .log (mkLog "b")] (by decide)).1

/-- C2: every `drain_batch` call either emits nothing, or emits a batch
holding at most `batch_size` logs and at most `batch_size` spans, at
least one record in total, and those records are removed from the front
of the respective queues in FIFO order. -/
theorem c2_drain_batch (b : TelemetryBuffer) (cid sp ns bid ver : String) (now : Nat) :
    (b.drainBatch cid sp ns bid ver now).1 = none ∨
    ∃ batch, (b.drainBatch cid sp ns bid ver now).1 = some batch ∧
      batch.logs.length ≤ b.batch_size ∧
      batch.spans.length ≤ b.batch_size ∧
      (batch.logs ≠ [] ∨ batch.spans ≠ []) ∧
      batch.logs = b.logs.take (min b.batch_size b.logs.length) ∧
      batch.spans = b.spans.take (min b.batch_size b.spans.length) ∧
      (b.drainBatch cid sp ns bid ver now).2.logs = b.logs.drop (min b.batch_size b.logs.length) ∧
      (b.drainBatch cid sp ns bid ver now).2.spans =
        b.spans.drop (min b.batch_size b.spans.length) := by
  by_cases h : min b.batch_size b.logs.length = 0 ∧ min b.batch_size b.spans.length = 0
  · left
    simp [TelemetryBuffer.drainBatch, h.1, h.2]
  · have hdrain : b.drainBatch cid sp ns bid ver now =
        (some (TelemetryBatch.new (b.logs.take (min b.batch_size b.logs.length))
            (b.spans.take (min b.batch_size b.spans.length)) cid sp ns bid ver now),
         { b with logs := b.logs.drop (min b.batch_size b.logs.length),
                  spans := b.spans.drop (min b.batch_size b.spans.length) }) := by
      simp only [TelemetryBuffer.drainBatch]
      rw [if_neg h]
    right
    rw [hdrain]
    refine ⟨_, rfl, ?_, ?_, ?_, rfl, rfl, rfl, rfl⟩
    · show (b.logs.take (min b.batch_size b.logs.length)).length ≤ b.batch_size
      rw [List.length_take]
      omega
    · show (b.spans.take (min b.batch_size b.spans.length)).length ≤ b.batch_size
      rw [List.length_take]
      omega
    · rcases Nat.eq_zero_or_pos (min b.batch_size b.logs.length) with h0 | h0
      · have h1 : min b.batch_size b.spans.length ≠ 0 := fun hb => h ⟨h0, hb⟩
        right
        show b.spans.take (min b.batch_size b.spans.length) ≠ []
        refine List.length_pos.mp ?_
        rw [List.length_take]
        omega
      · left
        show b.logs.take (min b.batch_size b.logs.length) ≠ []
        refine List.length_pos.mp ?_
        rw [List.length_take]
        omega

/-- C6: whenever the high-priority sub-buffer's drain produces a batch,
the priority buffer's drain returns exactly that batch (and therefore
never a normal-priority batch while a high-priority one is available). -/
theorem c6_priority_first (p : PriorityTelemetryBuffer) (cid sp ns bid ver : String) (now : Nat)
    (batch : TelemetryBatch) (high' : TelemetryBuffer)
    (h : p.high_priority.drainBatch cid sp ns bid ver now = (some batch, high')) :
    p.drainBatch cid sp ns bid ver now = (some batch, { p with high_priority := high' }) := by
  simp [PriorityTelemetryBuffer.drainBatch, h]

/-- Witness for C6 on a concrete priority buffer holding one
high-priority and one normal-priority record. -/
theorem c6_priority_first_witness :
    c6Priority.drainBatch "c" "p" "n" "b" "v" 0 =
      (some (TelemetryBatch.new [mkLog "E"] [] "c" "p" "n" "b" "v" 0),
       { c6Priority with
          high_priority := { logs := [], spans := [], max_size := 25, batch_size := 50 } }) :=
  c6_priority_first c6Priority "c" "p" "n" "b" "v" 0
    (TelemetryBatch.new [mkLog "E"] [] "c" "p" "n" "b" "v" 0)
    { logs := [], spans := [], max_size := 25, batch_size := 50 }
    (by decide)

/-- C8 refuted as stated: with cap 10 and 7 queued logs, `should_flush`
is true (`7 ≥ 10 * 3 / 4 = 7`) although 7 records do not exceed 75 % of
the cap (7.5) and `batch_size = 100` is not reached. -/
theorem c8_counterexample :
    TelemetryBuffer.shouldFlush c8Buffer = true ∧ specShouldFlush75 c8Buffer = false := by
  decide

/-- C8 (amended): `should_flush` is true exactly when a queue has reached
`batch_size`, or has reached `(max_size * 3 mod 2 ^ 64) / 4` — the usize
product `max_size * 3` wraps in release mode and the division is floor
division; whenever the product fits in 64 bits this threshold is plain
`max_size * 3 / 4`. -/
theorem c8_should_flush (b : TelemetryBuffer) :
    (b.shouldFlush = true ↔
      (b.batch_size ≤ b.logs.length ∨ b.batch_size ≤ b.spans.length ∨
        b.max_size * 3 % 2 ^ 64 / 4 ≤ b.logs.length ∨
        b.max_size * 3 % 2 ^ 64 / 4 ≤ b.spans.length)) ∧
    (b.max_size * 3 < 2 ^ 64 →
      (b.shouldFlush = true ↔
        (b.batch_size ≤ b.logs.length ∨ b.batch_size ≤ b.spans.length ∨
          b.max_size * 3 / 4 ≤ b.logs.length ∨ b.max_size * 3 / 4 ≤ b.spans.length))) := by
  constructor
  · simp only [TelemetryBuffer.shouldFlush, ge_iff_le, Bool.or_eq_true, decide_eq_true_eq]
    tauto
  · intro hlt
    simp only [TelemetryBuffer.shouldFlush, ge_iff_le, Bool.or_eq_true, decide_eq_true_eq,
      Nat.mod_eq_of_lt hlt]
    tauto

/-- Witness for C8: the no-wrap form of the threshold evaluated on the
concrete buffer (`10 * 3 < 2 ^ 64`). -/
theorem c8_should_flush_witness :
    TelemetryBuffer.shouldFlush c8Buffer = true ↔
      (c8Buffer.batch_size ≤ c8Buffer.logs.length ∨
        c8Buffer.batch_size ≤ c8Buffer.spans.length ∨
        c8Buffer.max_size * 3 / 4 ≤ c8Buffer.logs.length ∨
        c8Buffer.max_size * 3 / 4 ≤ c8Buffer.spans.length) :=
  (c8_should_flush c8Buffer).2 (by decide)

/-!
Helper lemmas for the priority buffer with `batch_size = 1` (claim C9).
-/

/-- A buffer whose `batch_size` is zero never emits a batch and is left
untouched by `drain_batch`. -/
theorem drainBatch_of_batch_size_zero (b : TelemetryBuffer)
    (cid sp ns bid ver : String) (now : Nat) (h : b.batch_size = 0) :
    b.drainBatch cid sp ns bid ver now = (none, b) := by
  simp [TelemetryBuffer.drainBatch, h]

/-- Enqueue sequences do not change a buffer's `batch_size`. -/
theorem applyBufOps_batch_size (ops : List BufOp) :
    ∀ b : TelemetryBuffer, (applyBufOps b ops).batch_size = b.batch_size := by
  induction ops with
  | nil => intro b; rfl
  | cons op ops ih =>
    intro b
    cases op with
    | log e => rw [applyBufOps, ih, addLog_batch_size]
    | span s => rw [applyBufOps, ih, addSpan_batch_size]

/-- When the high-priority sub-buffer can never emit (its `batch_size` is
zero), any operation sequence evolves it exactly by the high-priority
enqueues: the priority drains never touch it. -/
theorem applyPOps_high (ops : List POp) :
    ∀ p : PriorityTelemetryBuffer, p.high_priority.batch_size = 0 →
      (applyPOps p ops).high_priority = applyBufOps p.high_priority (hpOps ops) := by
  induction ops with
  | nil => intro p _; rfl
  | cons op ops ih =>
    intro p h
    cases op with
    | log e hp =>
      cases hp with
      | true =>
        have := ih (p.addLog e true) (by simpa [PriorityTelemetryBuffer.addLog] using h)
        simpa [applyPOps, hpOps, PriorityTelemetryBuffer.addLog, applyBufOps] using this
      | false =>
        have := ih (p.addLog e false) (by simpa [PriorityTelemetryBuffer.addLog] using h)
        simpa [applyPOps, hpOps, PriorityTelemetryBuffer.addLog] using this
    | span s hp =>
      cases hp with
      | true =>
        have := ih (p.addSpan s true) (by simpa [PriorityTelemetryBuffer.addSpan] using h)
        simpa [applyPOps, hpOps, PriorityTelemetryBuffer.addSpan, applyBufOps] using this
      | false =>
        have := ih (p.addSpan s false) (by simpa [PriorityTelemetryBuffer.addSpan] using h)
        simpa [applyPOps, hpOps, PriorityTelemetryBuffer.addSpan] using this
    | drain cid sp ns bid ver now =>
      have hstate : (p.drainBatch cid sp ns bid ver now).2 =
          { p with normal_priority := (p.normal_priority.drainBatch cid sp ns bid ver now).2 } := by
        simp [PriorityTelemetryBuffer.drainBatch,
          drainBatch_of_batch_size_zero p.high_priority cid sp ns bid ver now h]
      have := ih (p.drainBatch cid sp ns bid ver now).2 (by rw [hstate]; exact h)
      rw [applyPOps, hpOps] at *
      rw [this, hstate]

/-- C9: constructed with `batch_size = 1`, the high-priority sub-buffer
gets batch size `1 / 2 = 0` and hence can never emit: in every reachable
state its drain yields nothing, the priority drain's emitted batch is
exactly the normal sub-buffer's, and the high-priority queue evolves only
by its drop-oldest enqueues (high-priority records are never drained). -/
theorem c9_batch_size_one (config : BufferConfig) (h1 : config.batch_size = 1)
    (ops : List POp) (cid sp ns bid ver : String) (now : Nat) :
    ((applyPOps (PriorityTelemetryBuffer.new config) ops).high_priority.drainBatch
        cid sp ns bid ver now).1 = none ∧
    ((applyPOps (PriorityTelemetryBuffer.new config) ops).drainBatch cid sp ns bid ver now).1 =
      ((applyPOps (PriorityTelemetryBuffer.new config) ops).normal_priority.drainBatch
        cid sp ns bid ver now).1 ∧
    (applyPOps (PriorityTelemetryBuffer.new config) ops).high_priority =
      applyBufOps (TelemetryBuffer.new (config.max_size / 4) (config.batch_size / 2))
        (hpOps ops) := by
  have h0 : (PriorityTelemetryBuffer.new config).high_priority.batch_size = 0 := by
    simp [PriorityTelemetryBuffer.new, TelemetryBuffer.new, h1]
  have hhigh := applyPOps_high ops (PriorityTelemetryBuffer.new config) h0
  have hbz : (applyPOps (PriorityTelemetryBuffer.new config) ops).high_priority.batch_size = 0 := by
    rw [hhigh, applyBufOps_batch_size]
    exact h0
  have hnone := drainBatch_of_batch_size_zero _ cid sp ns bid ver now hbz
  refine ⟨by rw [hnone], ?_, hhigh⟩
  simp [PriorityTelemetryBuffer.drainBatch, hnone]

/-- Witness for C9: with `batch_size = 1` and one high-priority record
enqueued, the high sub-buffer's drain still emits nothing. -/
theorem c9_batch_size_one_witness :
    ((applyPOps (PriorityTelemetryBuffer.new { max_size := 8, batch_size := 1 })
        [.log (mkLog "E") true]).high_priority.drainBatch "c" "p" "n" "b" "v" 0).1 = none :=
  (c9_batch_size_one { max_size := 8, batch_size := 1 } rfl
    [.log (mkLog "E") true] "c" "p" "n" "b" "v" 0).1

/-!
Helper lemmas for the retry loop of `send_batch` (claim C4).
-/

/-- The loop makes at most `attempt + remaining` attempts in total. -/
theorem sendFrom_attempts_le (outcomes : Nat → Bool) (backoff : Nat) :
    ∀ remaining attempt, (sendFrom outcomes backoff attempt remaining).attempts ≤
      attempt + remaining := by
  intro remaining
  induction remaining with
  | zero => intro a; simp [sendFrom]
  | succ n ih =>
    intro a
    rw [sendFrom]
    by_cases ho : outcomes a = true
    · rw [if_pos ho]
      show a + 1 ≤ a + (n + 1)
      omega
    · rw [if_neg ho]
      by_cases hn : n = 0
      · rw [if_pos hn]
        show a + 1 ≤ a + (n + 1)
        omega
      · rw [if_neg hn]
        show (sendFrom outcomes backoff (a + 1) n).attempts ≤ a + (n + 1)
        have := ih (a + 1)
        omega

/-- The loop succeeds iff some attempt in its window succeeds. -/
theorem sendFrom_succeeded (outcomes : Nat → Bool) (backoff : Nat) :
    ∀ remaining attempt, (sendFrom outcomes backoff attempt remaining).succeeded = true ↔
      ∃ i, attempt ≤ i ∧ i < attempt + remaining ∧ outcomes i = true := by
  intro remaining
  induction remaining with
  | zero =>
    intro a
    simp only [sendFrom]
    constructor
    · intro hfalse; cases hfalse
    · rintro ⟨i, h1, h2, _⟩; omega
  | succ n ih =>
    intro a
    rw [sendFrom]
    by_cases ho : outcomes a = true
    · rw [if_pos ho]
      constructor
      · intro _; exact ⟨a, le_refl a, by omega, ho⟩
      · intro _; rfl
    · rw [if_neg ho]
      by_cases hn : n = 0
      · rw [if_pos hn]
        constructor
        · intro hfalse; cases hfalse
        · rintro ⟨i, h1, h2, h3⟩
          subst hn
          have : i = a := by omega
          subst this
          exact absurd h3 ho
      · rw [if_neg hn]
        show (sendFrom outcomes backoff (a + 1) n).succeeded = true ↔ _
        rw [ih (a + 1)]
        constructor
        · rintro ⟨i, h1, h2, h3⟩
          exact ⟨i, by omega, by omega, h3⟩
        · rintro ⟨i, h1, h2, h3⟩
          have hne : i ≠ a := fun he => ho (he ▸ h3)
          exact ⟨i, by omega, by omega, h3⟩

/-- The `k`-th inserted delay (0-indexed) is
`retry_backoff_ms * 2 ^ (attempt + k) % 2 ^ 64`. -/
theorem sendFrom_delays (outcomes : Nat → Bool) (backoff : Nat) :
    ∀ remaining attempt k, k < (sendFrom outcomes backoff attempt remaining).delays.length →
      (sendFrom outcomes backoff attempt remaining).delays.getD k 0 =
        backoff * 2 ^ (attempt + k) % 2 ^ 64 := by
  intro remaining
  induction remaining with
  | zero => intro a k hk; simp [sendFrom] at hk
  | succ n ih =>
    intro a k hk
    rw [sendFrom] at hk ⊢
    by_cases ho : outcomes a = true
    · rw [if_pos ho] at hk
      simp at hk
    · rw [if_neg ho] at hk ⊢
      by_cases hn : n = 0
      · rw [if_pos hn] at hk
        simp at hk
      · rw [if_neg hn] at hk ⊢
        cases k with
        | zero =>
          show (backoff * 2 ^ a % 2 ^ 64 ::
            (sendFrom outcomes backoff (a + 1) n).delays).getD 0 0 = _
          simp
        | succ k =>
          show (backoff * 2 ^ a % 2 ^ 64 ::
            (sendFrom outcomes backoff (a + 1) n).delays).getD (k + 1) 0 = _
          have hk' : k < (sendFrom outcomes backoff (a + 1) n).delays.length := by
            revert hk
            show k + 1 < (backoff * 2 ^ a % 2 ^ 64 ::
              (sendFrom outcomes backoff (a + 1) n).delays).length → _
            simp
          have := ih (a + 1) k hk'
          rw [show a + (k + 1) = a + 1 + k by omega]
          simpa using this

/-- If attempt `i` is the first success of the window, the loop makes
exactly `i + 1` attempts. -/
theorem sendFrom_first_success (outcomes : Nat → Bool) (backoff : Nat) :
    ∀ remaining attempt i, attempt ≤ i → i < attempt + remaining → outcomes i = true →
      (∀ j, attempt ≤ j → j < i → outcomes j = false) →
      (sendFrom outcomes backoff attempt remaining).attempts = i + 1 := by
  intro remaining
  induction remaining with
  | zero => intro a i h1 h2; omega
  | succ n ih =>
    intro a i h1 h2 h3 h4
    rw [sendFrom]
    by_cases ho : outcomes a = true
    · rw [if_pos ho]
      show a + 1 = i + 1
      have : i = a := by
        by_contra hne
        have hfa := h4 a (le_refl a) (by omega)
        rw [hfa] at ho
        cases ho
      omega
    · have hia : i ≠ a := fun he => ho (he ▸ h3)
      rw [if_neg ho]
      by_cases hn : n = 0
      · exact absurd (by omega : i = a) hia
      · rw [if_neg hn]
        show (sendFrom outcomes backoff (a + 1) n).attempts = i + 1
        exact ih (a + 1) i (by omega) (by omega) h3
          (fun j hj1 hj2 => h4 j (by omega) hj2)

/-- When the counter cannot wrap (`max_retries + 1 < 2 ^ 32`), the loop
terminates within `max_retries + 1 - attempt` iterations and computes
exactly the unwrapped reference `sendFrom` (along such a run the counter
equals the number of calls made). -/
theorem sendRun_eq_sendFrom (outcomes : Nat → Bool) (max_retries backoff : Nat)
    (hmr : max_retries + 1 < 2 ^ 32) :
    ∀ fuel attempt, attempt ≤ max_retries → max_retries + 1 - attempt ≤ fuel →
      sendRun outcomes max_retries backoff fuel attempt attempt =
        some (sendFrom outcomes backoff attempt (max_retries + 1 - attempt)) := by
  intro fuel
  induction fuel with
  | zero => intro a ha hf; omega
  | succ n ih =>
    intro a ha hf
    obtain ⟨m, hm⟩ : ∃ m, max_retries + 1 - a = m + 1 := ⟨max_retries - a, by omega⟩
    rw [hm, sendRun, sendFrom, if_pos ha]
    have ha1 : (a + 1) % 2 ^ 32 = a + 1 := Nat.mod_eq_of_lt (by omega)
    by_cases ho : outcomes a = true
    · rw [if_pos ho, if_pos ho]
    · rw [if_neg ho, if_neg ho, ha1]
      by_cases hlt : a + 1 ≤ max_retries
      · rw [if_pos hlt]
        have hm0 : m ≠ 0 := by omega
        rw [if_neg hm0]
        have hexp : (a + 1 + (2 ^ 32 - 1)) % 2 ^ 32 = a := by
          have h1 : a + 1 + (2 ^ 32 - 1) = a + 2 ^ 32 := by omega
          rw [h1, Nat.add_mod_right]
          exact Nat.mod_eq_of_lt (by omega)
        rw [hexp]
        have hih := ih (a + 1) (by omega) (by omega)
        have hrem : max_retries + 1 - (a + 1) = m := by omega
        rw [hrem] at hih
        rw [hih]
      · rw [if_neg hlt]
        have hm0 : m = 0 := by omega
        rw [hm0, if_pos rfl]

/-- At `max_retries = u32::MAX = 2 ^ 32 - 1`, when every attempt fails,
the counter wraps and the guard never becomes false: the loop is still
running after any number of iterations. -/
theorem sendRun_max_u32 (outcomes : Nat → Bool) (backoff : Nat)
    (hfail : ∀ i, outcomes i = false) :
    ∀ fuel attempt calls, attempt < 2 ^ 32 →
      sendRun outcomes (2 ^ 32 - 1) backoff fuel attempt calls = none := by
  intro fuel
  induction fuel with
  | zero => intro a c ha; rfl
  | succ n ih =>
    intro a c ha
    rw [sendRun, if_pos (by omega : a ≤ 2 ^ 32 - 1), hfail c]
    rw [if_neg (by simp : ¬(false = true))]
    rw [if_pos (by omega : (a + 1) % 2 ^ 32 ≤ 2 ^ 32 - 1)]
    rw [ih ((a + 1) % 2 ^ 32) (c + 1) (by omega)]

/-- C4 (amended): provided `max_retries < u32::MAX`
(`max_retries + 1 < 2 ^ 32`), `send_batch` terminates with a result `r`:
it makes at most `max_retries + 1` attempts; it succeeds iff some attempt
of that window succeeds (equivalently it returns an error iff all
attempts fail), stopping right after the first success; and the delay
before retry `n` (the `n-1`-th entry, `n ≥ 1`) is
`retry_backoff_ms * 2 ^ (n - 1)` computed in wrapping u64 arithmetic,
i.e. reduced `% 2 ^ 64` — the code applies no other cap.  At
`max_retries = u32::MAX` the release-mode u32 counter wraps and, when
every attempt fails, the loop never returns at all. -/
theorem c4_send_batch :
    (∀ (outcomes : Nat → Bool) (max_retries retry_backoff_ms : Nat),
      max_retries + 1 < 2 ^ 32 →
      ∃ r, (∀ fuel, max_retries + 1 ≤ fuel →
              sendBatch outcomes max_retries retry_backoff_ms fuel = some r) ∧
        r.attempts ≤ max_retries + 1 ∧
        (r.succeeded = true ↔ ∃ i, i ≤ max_retries ∧ outcomes i = true) ∧
        (∀ n, 1 ≤ n → n - 1 < r.delays.length →
          r.delays.getD (n - 1) 0 = retry_backoff_ms * 2 ^ (n - 1) % 2 ^ 64) ∧
        (∀ i, i ≤ max_retries → outcomes i = true → (∀ j, j < i → outcomes j = false) →
          r.attempts = i + 1)) ∧
    (∀ (outcomes : Nat → Bool) (retry_backoff_ms fuel : Nat), (∀ i, outcomes i = false) →
      sendBatch outcomes (2 ^ 32 - 1) retry_backoff_ms fuel = none) := by
  constructor
  · intro outcomes max_retries retry_backoff_ms hmr
    refine ⟨sendFrom outcomes retry_backoff_ms 0 (max_retries + 1), ?_, ?_, ?_, ?_, ?_⟩
    · intro fuel hf
      have := sendRun_eq_sendFrom outcomes max_retries retry_backoff_ms hmr fuel 0
        (Nat.zero_le max_retries) (by omega)
      simpa [sendBatch] using this
    · simpa using sendFrom_attempts_le outcomes retry_backoff_ms (max_retries + 1) 0
    · rw [sendFrom_succeeded]
      constructor
      · rintro ⟨i, _, h2, h3⟩
        exact ⟨i, by omega, h3⟩
      · rintro ⟨i, h1, h2⟩
        exact ⟨i, by omega, by omega, h2⟩
    · intro n h1 h2
      have := sendFrom_delays outcomes retry_backoff_ms (max_retries + 1) 0 (n - 1) h2
      simpa using this
    · intro i h1 h2 h3
      exact sendFrom_first_success outcomes retry_backoff_ms (max_retries + 1) 0 i
        (Nat.zero_le i) (by omega) h2 (fun j _ hj => h3 j hj)
  · intro outcomes retry_backoff_ms fuel hfail
    exact sendRun_max_u32 outcomes retry_backoff_ms hfail fuel 0 0 (by decide)

/-- C4 refuted as stated: with `retry_backoff_ms = 2 ^ 63` the delay
before retry 2 as computed by the code is `2 ^ 63 * 2` wrapped in u64,
namely 0, not the claimed `retry_backoff_ms * 2 ^ (2 - 1) = 2 ^ 64`;
there is no cap, only the 64-bit wrap-around. -/
theorem c4_counterexample :
    (sendBatch (fun _ => false) 2 (2 ^ 63) 3).map (fun r => r.delays.getD 1 0) = some 0 ∧
      2 ^ 63 * 2 ^ (2 - 1) ≠ (0 : Nat) := by
  constructor
  · rfl
  · decide

/-- Witness for C4: with the first success at attempt index 1, the loop
returns after exactly 2 attempts. -/
theorem c4_send_batch_witness :
    ∃ r, sendBatch (fun i => i == 1) 3 7 4 = some r ∧ r.attempts = 2 := by
  obtain ⟨r, hfuel, _, _, _, hfirst⟩ := c4_send_batch.1 (fun i => i == 1) 3 7 (by decide)
  exact ⟨r, hfuel 4 (by decide),
    hfirst 1 (by decide) (by decide) (fun j hj => by interval_cases j; decide)⟩

/-- C3 refuted as stated: on the line `{"level":"INFO"}` — first
non-whitespace character `{`, a JSON object with no
`message` / `msg` / `text` key — the composite parser still emits a log
record (the regex fallback with the whole line as message). -/
theorem c3_counterexample :
    compositeParseLog c3Line (some c3Json) true "svc" "pod" "ns" 0 (fun _ => none) ≠ none := by
  decide

/-- C3 (amended): for a brace-led line parsing to a JSON object in which
none of `message` / `msg` / `text` holds a non-empty string, the
structured (JSON) parser emits no log record; the composite parser,
however, then falls back to the textual parser (which does emit a
record). -/
theorem c3_no_message (j : Json) (tc : Bool) (svc pod ns : String) (now : Nat)
    (line : String) (parseTs : String → Option Nat)
    (hm1 : (j.idx "message").asStr = none ∨ (j.idx "message").asStr = some "")
    (hm2 : (j.idx "msg").asStr = none ∨ (j.idx "msg").asStr = some "")
    (hm3 : (j.idx "text").asStr = none ∨ (j.idx "text").asStr = some "")
    (hline : startsWithLBrace line = true) :
    jsonParseLog j tc svc pod ns now = none ∧
    compositeParseLog line (some j) tc svc pod ns now parseTs =
      regexParseLog line tc svc pod ns now parseTs := by
  have hjson : jsonParseLog j tc svc pod ns now = none := by
    unfold jsonParseLog
    rcases hm1 with h1 | h1 <;> rcases hm2 with h2 | h2 <;> rcases hm3 with h3 | h3 <;>
      simp [h1, h2, h3, rustOr]
  refine ⟨hjson, ?_⟩
  simp [compositeParseLog, hline, hjson]

/-- Witness for C3 on the concrete line `{"level":"INFO"}`. -/
theorem c3_no_message_witness :
    jsonParseLog c3Json true "s" "p" "n" 0 = none ∧
    compositeParseLog c3Line (some c3Json) true "s" "p" "n" 0 (fun _ => none) =
      regexParseLog c3Line true "s" "p" "n" 0 (fun _ => none) :=
  c3_no_message c3Json true "s" "p" "n" 0 c3Line (fun _ => none)
    (Or.inl (by decide)) (Or.inl (by decide)) (Or.inl (by decide)) (by decide)

/-- C5 refuted in its span half: the boundary-scenario line carries a
`span_id` key, so `parse_span` does emit a span. -/
theorem c5_counterexample :
    jsonParseSpan c5Json "svc" "T" "S" 0 ≠ none := by
  decide

/-- C5 (amended): on the boundary-scenario line with trace correlation
enabled, `parse_log` emits exactly one record with severity Error,
message `Test error`, trace `abc123`, span `def456`; and `parse_span`
emits a span (operation `unknown`, zero duration, status Ok) rather than
none, because the line carries a `span_id`. -/
theorem c5_structured_line (svc pod ns gt gs : String) (now : Nat) :
    jsonParseLog c5Json true svc pod ns now =
      some { timestamp := 1701234567, level := .Error, message := "Test error"
             service_name := svc, pod_name := pod, namespace_ := ns
             trace_id := some "abc123", span_id := some "def456", attributes := [] } ∧
    jsonParseSpan c5Json svc gt gs now =
      some { trace_id := "abc123", span_id := "def456", parent_span_id := none
             operation_name := "unknown", start_time := now, end_time := now
             duration_ms := 0, status := .Ok, service_name := svc, tags := [] } := by
  constructor
  · rfl
  · have h1 : jsonParseSpan c5Json svc gt gs now =
        some { trace_id := "abc123", span_id := "def456", parent_span_id := none
               operation_name := "unknown", start_time := now, end_time := now
               duration_ms := (now - now) * 1000 % 2 ^ 64, status := .Ok
               service_name := svc, tags := [] } := rfl
    rw [h1, Nat.sub_self]
    simp

/-- C7 refuted as stated: for `start_time = 0`, `end_time = 2 ^ 61`, the
u64 product `(end - start) * 1000 = 125 * 2 ^ 64` wraps to 0, so the
emitted duration is 0, not the claimed `(end - start) * 1000`. -/
theorem c7_counterexample :
    (jsonParseSpan c7Json "svc" "T" "S" 0).map TraceSpan.duration_ms = some 0 ∧
      (2 ^ 61 - 0) * 1000 ≠ (0 : Nat) := by
  constructor
  · rfl
  · decide

/-- C7 (amended): for every span line carrying `span_id` or `spanId`,
with both a start and an end time present and `duration_ms` / `duration`
absent, the emitted span's duration is `(end - start) * 1000` under
saturating subtraction, reduced modulo `2 ^ 64` (wrapping u64
multiplication) — so the claimed equality holds exactly whenever the
product fits in 64 bits. -/
theorem c7_span_duration (j : Json) (svc gt gs : String) (now s e : Nat)
    (hkey : j.hasKey "span_id" = true ∨ j.hasKey "spanId" = true)
    (hs : rustOr (j.idx "start_time").asU64 (j.idx "startTime").asU64 = some s)
    (he : rustOr (j.idx "end_time").asU64 (j.idx "endTime").asU64 = some e)
    (hd1 : (j.idx "duration_ms").asU64 = none)
    (hd2 : (j.idx "duration").asU64 = none) :
    ∃ sp_, jsonParseSpan j svc gt gs now = some sp_ ∧
      sp_.duration_ms = (e - s) * 1000 % 2 ^ 64 := by
  have hcond : (!j.hasKey "span_id" && !j.hasKey "spanId") = false := by
    rcases hkey with h | h <;> simp [h]
  unfold jsonParseSpan
  rw [hcond]
  simp only [Bool.false_eq_true, if_false]
  refine ⟨_, rfl, ?_⟩
  simp only [rustOr] at hs he
  simp [rustOr, hs, he, hd1, hd2]

/-- Witness for C7: start 3, end 5 give duration 2000. -/
theorem c7_span_duration_witness :
    ∃ sp_, jsonParseSpan c7SmallJson "svc" "T" "S" 7 = some sp_ ∧
      sp_.duration_ms = (5 - 3) * 1000 % 2 ^ 64 :=
  c7_span_duration c7SmallJson "svc" "T" "S" 7 3 5 (Or.inl (by decide))
    (by decide) (by decide) (by decide) (by decide)

/-- Splitting never yields an empty segment list. -/
theorem rustSplit_ne_nil (c : Char) (l : List Char) : rustSplit c l ≠ [] := by
  cases l with
  | nil => simp [rustSplit]
  | cons x xs =>
    rw [rustSplit]
    cases hsplit : rustSplit c xs with
    | nil => simp [hsplit]
    | cons hd tl =>
      simp only [hsplit]
      split <;> simp

/-- C10: with `LOG_PATHS` set to the empty string, `from_env` produces
`log_paths = [""]` and `validate` accepts the configuration; and for
every environment the produced `log_paths` list is non-empty, so the
empty-path-list rejection of `validate` can never fire on an
environment-derived configuration. -/
theorem c10_log_paths :
    (Config.fromEnv envLP).log_paths = [""] ∧
    (Config.fromEnv envLP).validate = Except.ok () ∧
    ∀ env, (Config.fromEnv env).log_paths ≠ [] := by
  refine ⟨rfl, rfl, ?_⟩
  intro env
  show (match env "LOG_PATHS" with
    | some s => (rustSplit ',' s.toList).map (fun seg => String.mk (trimChars seg))
    | none => Config.default.log_paths) ≠ []
  cases h : env "LOG_PATHS" with
  | none => simp [Config.default]
  | some s =>
    simp only []
    intro hnil
    rw [List.map_eq_nil_iff] at hnil
    exact rustSplit_ne_nil ',' s.toList hnil
